import Mathlib

/-!
Shallow embedding of the game-of-life-wgpu renderer (src/main.rs, src/vertex.rs).

The host-side control logic of `State` is modelled as pure functions over an
explicit state record. GPU handles (device, queue, surface, pipelines) carry no
host-visible data and are omitted; the commands recorded into encoders and the
writes issued through the queue are modelled as explicit event lists. Times
(`Instant`, `Duration`) are modelled as natural numbers of milliseconds;
`Duration::from_millis(8)` becomes the literal `8`, and Rust's panicking
`Instant` subtraction is modelled by truncated `Nat` subtraction (the event
loop only ever passes monotone `now` values). `f32` grid values and colors are
modelled as rationals.
-/

namespace GOL

/-- The GPU buffers created in `State::new`: the vertex buffer, the grid
dimensions uniform buffer, and the two cell-state storage buffers
(`cell_states_buffers[0]` and `[1]`). -/
inductive GpuBuffer where
  | vertexBuffer
  | uniformBuffer
  | cellBuffer (i : Fin 2)
deriving DecidableEq, Repr

/-- A bind group as built in `State::new`: binding 0 is the uniform buffer,
binding 1 the read-only storage buffer, binding 2 the read-write storage
buffer (per the `bind_group_layout` entries at main.rs:154-188). -/
structure BindGroup where
  uniform : GpuBuffer
  read : GpuBuffer
  write : GpuBuffer
deriving DecidableEq, Repr

/-- The `bind_groups` array built at main.rs:189-238: group 0 reads cell
buffer 0 and writes cell buffer 1; group 1 reads cell buffer 1 and writes
cell buffer 0. Both share the uniform buffer at binding 0. -/
def bind_groups : Fin 2 → BindGroup :=
  ![⟨.uniformBuffer, .cellBuffer 0, .cellBuffer 1⟩,
    ⟨.uniformBuffer, .cellBuffer 1, .cellBuffer 0⟩]

/-- An RGBA clear color (wgpu `Color`), components as rationals. -/
structure Color where
  r : ℚ
  g : ℚ
  b : ℚ
  a : ℚ
deriving DecidableEq, Repr

/-- The fixed background color set in `State::new` (main.rs:284-289):
`Color { r: 0.0, g: 0.05, b: 0.2, a: 1.0 }`. -/
def clearColor : Color := ⟨0, 5/100, 2/10, 1⟩

/-- The surface configuration fields the core mutates (width/height of
`surface_config`). -/
structure SurfaceConfig where
  width : Nat
  height : Nat
deriving DecidableEq, Repr

/-- The mutable host-side fields of `State` (main.rs:83-103). GPU handles
(`window`, `surface`, `device`, `queue`, `vertex_buffer`, pipelines) and the
immutable `bind_groups` array are not host-mutable data and live outside this
record. -/
structure State where
  surface_config : SurfaceConfig
  size : Nat × Nat
  clear_color : Color
  grid_size : Nat
  selected_bind : Nat
  last_time : Nat
  compute_delay : Nat
deriving DecidableEq, Repr

/-- The `State` produced by `State::new` (main.rs:277-298), parameterised by
the window's inner size and the `Instant::now()` timestamp taken at
initialisation: `grid_size = 512`, `selected_bind = 0`,
`compute_delay = Duration::from_millis(8)`. -/
def initState (win_w win_h t0 : Nat) : State :=
  { surface_config := ⟨win_w, win_h⟩
    size := (win_w, win_h)
    clear_color := clearColor
    grid_size := 512
    selected_bind := 0
    last_time := t0
    compute_delay := 8 }

/-- The vertex list `VERTICES` from src/vertex.rs:6-13: twelve `f32`
components forming six two-component vertices (two triangles of a quad). -/
def VERTICES : List ℚ :=
  [-8/10, -8/10, 8/10, -8/10, 8/10, 8/10, -8/10, -8/10, 8/10, 8/10, -8/10, 8/10]

/-- A host-side `queue.write_buffer` call: the target buffer and the data
uploaded (as rationals standing for the `f32` payload). -/
structure HostWrite where
  target : GpuBuffer
  data : List ℚ
deriving DecidableEq, Repr

/-- One cell value of the initial seeding loop (main.rs:143):
`if rng.gen::<f32>() > 0.6 { 1.0 } else { 0.0 }`, where `r` is the random
draw (uniform on [0,1)). Generic over the ordered field so the same
definition serves the executable ℚ model and the ℝ probability statement. -/
def seedCell {α : Type} [LinearOrderedField α] (r : α) : α :=
  if 6/10 < r then 1 else 0

/-- The seeded contents of `cell_states` (main.rs:125,141-144): one value per
cell of the `grid_size * grid_size` grid, cell `i` drawn from the `i`-th
random float. -/
def seededCells (randoms : Nat → ℚ) : List ℚ :=
  (List.range (512 * 512)).map fun i => seedCell (randoms i)

/-- The byte size of each of the two `cell_states_buffers` (main.rs:126-139):
`cell_states.len() * size_of::<f32>()` with `cell_states.len() = 512 * 512`. -/
def cellBufferByteSize (i : Fin 2) : Nat :=
  match i with
  | 0 => 512 * 512 * 4
  | 1 => 512 * 512 * 4

/-- All `queue.write_buffer` calls issued by `State::new`, in program order:
the vertex upload (main.rs:114), the uniform contents supplied at buffer
creation (main.rs:119-123, `[grid_size as f32; 2]`), and the one-time seeding
of cell buffer 0 (main.rs:145-149). No other host write exists in the
program. -/
def initWrites (randoms : Nat → ℚ) : List HostWrite :=
  [⟨.vertexBuffer, VERTICES⟩,
   ⟨.uniformBuffer, [512, 512]⟩,
   ⟨.cellBuffer 0, seededCells randoms⟩]

/-- Whether a host write targets one of the two cell-state buffers. -/
def HostWrite.isCellWrite (w : HostWrite) : Bool :=
  match w.target with
  | .cellBuffer _ => true
  | _ => false

/-- GPU commands recorded into a command encoder, as issued by
`State::update` (compute pass, main.rs:324-332) and `State::render` (render
pass, main.rs:349-370). -/
inductive Cmd where
  | beginComputePass
  | setComputePipeline
  | setRenderPipeline
  | setBindGroup (idx : Nat)
  | dispatchWorkgroups (x y z : Nat)
  | beginRenderPass (clear : Color)
  | setVertexBuffer
  | draw (vertexCount instanceCount : Nat)
deriving DecidableEq, Repr

/-- The workgroup count per axis (main.rs:330):
`(grid_size as f32 / 8.0).ceil() as _`, i.e. ⌈grid_size / 8⌉ (exact in `f32`
for any realistic grid size, in particular for 512). -/
def workgroup_count (grid_size : Nat) : Nat := (grid_size + 7) / 8

/-- Modelled from the spec: the compute shader (`compute.wgsl`, consumed via
`include_wgsl!` but not part of this snapshot) partitions work into
"fixed-size square tiles"; the dispatch in main.rs:330 divides the grid size
by 8 per axis, so the tile edge is 8 cells. -/
def WORKGROUP_TILE : Nat := 8

/-- The commands recorded into the compute encoder of `State::update`
(main.rs:324-332), for a state whose selected bind index is
`s.selected_bind`. -/
def computeCmds (s : State) : List Cmd :=
  [.beginComputePass, .setComputePipeline, .setBindGroup s.selected_bind,
   .dispatchWorkgroups (workgroup_count s.grid_size) (workgroup_count s.grid_size) 1]

/-- `State::update` (main.rs:312-337) at wall-clock time `now`: if less than
`compute_delay` has elapsed since `last_time` it returns with no commands;
otherwise it records `last_time := now`, encodes and submits one compute pass
on the currently selected bind group, and toggles `selected_bind ^= 1`. The
returned list is the submitted command sequence (empty when nothing was
submitted). -/
def update (s : State) (now : Nat) : State × List Cmd :=
  if now - s.last_time < s.compute_delay then (s, [])
  else
    ({ s with last_time := now, selected_bind := s.selected_bind ^^^ 1 },
     computeCmds s)

/-- The commands recorded into the render encoder of `State::render`
(main.rs:349-370): one render pass that clears to `clear_color`, then one
draw of `VERTICES.len() / 2` vertices instanced `grid_size * grid_size`
times, through the currently selected bind group. -/
def renderCmds (s : State) : List Cmd :=
  [.beginRenderPass s.clear_color, .setRenderPipeline, .setVertexBuffer,
   .setBindGroup s.selected_bind,
   .draw (VERTICES.length / 2) (s.grid_size * s.grid_size)]

/-- The `wgpu::SurfaceError` variants `get_current_texture` can report. -/
inductive SurfaceError where
  | Timeout
  | Outdated
  | Lost
  | OutOfMemory
deriving DecidableEq, Repr

/-- Host-visible events of one frame: command-buffer submissions to the
queue, the surface-texture acquisition and its outcome, presentation, and
(were any to occur) host buffer writes. -/
inductive FrameEvent where
  | submit (cmds : List Cmd)
  | acquireOk
  | acquireFail (e : SurfaceError)
  | present
  | hostWrite (w : HostWrite)
deriving DecidableEq, Repr

/-- `State::resize` (main.rs:301-306): store the new size, update the surface
configuration's width and height, and reconfigure the surface with that
configuration. The returned pair is the new state and the configuration call
issued (as the (width, height) it configures). -/
def resize (s : State) (new_size : Nat × Nat) : State × List (Nat × Nat) :=
  ({ s with
      size := new_size
      surface_config := ⟨new_size.1, new_size.2⟩ },
   [(new_size.1, new_size.2)])

/-- `State::render` (main.rs:339-376), with the outcome of
`surface.get_current_texture()` supplied by the environment (`none` =
success). On failure the `?` operator returns the error before any encoding;
on success the render pass is encoded, submitted, and the texture presented. -/
def render (s : State) (acq : Option SurfaceError) :
    List FrameEvent × Option SurfaceError :=
  match acq with
  | some e => ([.acquireFail e], some e)
  | none => ([.acquireOk, .submit (renderCmds s), .present], none)

/-- What the event loop does with the result of `State::render`
(main.rs:429-434). -/
inductive ErrorAction where
  | proceed
  | reconfigure
  | exitLoop
  | logAndContinue
deriving DecidableEq, Repr

/-- The `match state.render()` arms of `App::window_event` (main.rs:429-434):
`Ok` proceeds; `Err(Lost)` calls `state.resize(state.size)` (reconfigure with
the current window size); `Err(OutOfMemory)` exits the event loop; every
other error (`Timeout`, `Outdated`) is logged via `eprintln!` and the loop
continues. -/
def handleRenderResult (s : State) :
    Option SurfaceError → State × ErrorAction
  | none => (s, .proceed)
  | some .Lost => ((resize s s.size).1, .reconfigure)
  | some .OutOfMemory => (s, .exitLoop)
  | some _ => (s, .logAndContinue)

/-- One `RedrawRequested` frame of `App::window_event` (main.rs:427-435):
`state.update()` runs first (possibly submitting a simulation dispatch), then
`state.render()` acquires the target and draws, then the render result is
classified. Returns the post-frame state, the frame's host-visible events in
order, and the loop action taken. -/
def frame (s : State) (now : Nat) (acq : Option SurfaceError) :
    State × List FrameEvent × ErrorAction :=
  let u := update s now
  let simEvents : List FrameEvent := if u.2.isEmpty then [] else [.submit u.2]
  let r := render u.1 acq
  let h := handleRenderResult u.1 r.2
  (h.1, simEvents ++ r.1, h.2)

/-- Folding `State::update` over a sequence of frame timestamps, collecting
every submitted command. -/
def runFrames (s : State) : List Nat → State × List Cmd
  | [] => (s, [])
  | t :: ts =>
      let u := update s t
      let r := runFrames u.1 ts
      (r.1, u.2 ++ r.2)

/-- Whether a command is a compute dispatch. -/
def Cmd.isDispatch : Cmd → Bool
  | .dispatchWorkgroups _ _ _ => true
  | _ => false

/-- Whether a command is a draw call. -/
def Cmd.isDraw : Cmd → Bool
  | .draw _ _ => true
  | _ => false

/-- Number of compute dispatches in a command list. -/
def countDispatch (cs : List Cmd) : Nat := (cs.filter Cmd.isDispatch).length

/-- Number of draw calls in a command list. -/
def countDraw (cs : List Cmd) : Nat := (cs.filter Cmd.isDraw).length

/-- Number of compute dispatches across all submissions of a frame's
events. -/
def countDispatchEvents (evs : List FrameEvent) : Nat :=
  (evs.map fun ev =>
    match ev with
    | .submit cs => countDispatch cs
    | _ => 0).sum

/-- Number of draw calls across all submissions of a frame's events. -/
def countDrawEvents (evs : List FrameEvent) : Nat :=
  (evs.map fun ev =>
    match ev with
    | .submit cs => countDraw cs
    | _ => 0).sum

/-- Number of host buffer writes among a frame's events. -/
def countHostWrites (evs : List FrameEvent) : Nat :=
  (evs.filter fun ev =>
    match ev with
    | .hostWrite _ => true
    | _ => false).length

end GOL

namespace GOL

/-- C1: the two bind groups built at initialization are mirror images that
never alias read and write: group 0 wires {uniform, read = cell buffer 0,
write = cell buffer 1}, group 1 wires {uniform, read = cell buffer 1,
write = cell buffer 0}; for each index the read buffer differs from the
write buffer, group 1's read equals group 0's write, and group 1's write
equals group 0's read. -/
theorem bind_groups_mirror_no_alias :
    bind_groups 0 = ⟨.uniformBuffer, .cellBuffer 0, .cellBuffer 1⟩ ∧
    bind_groups 1 = ⟨.uniformBuffer, .cellBuffer 1, .cellBuffer 0⟩ ∧
    (∀ i : Fin 2, (bind_groups i).read ≠ (bind_groups i).write) ∧
    (bind_groups 1).read = (bind_groups 0).write ∧
    (bind_groups 1).write = (bind_groups 0).read := by
  refine ⟨rfl, rfl, ?_, rfl, rfl⟩
  decide

/-- Dispatches in a concatenation of command lists add up. -/
lemma countDispatch_append (a b : List Cmd) :
    countDispatch (a ++ b) = countDispatch a + countDispatch b := by
  simp [countDispatch, List.filter_append]

/-- The compute encoder of one update contains exactly one dispatch. -/
lemma countDispatch_computeCmds (s : State) : countDispatch (computeCmds s) = 1 := rfl

/-- Toggling with xor 1 always changes the value. -/
lemma xor_one_ne (x : Nat) : x ^^^ 1 ≠ x := by
  intro h
  have h0 : x ^^^ 1 = x ^^^ 0 := by simpa using h
  exact one_ne_zero (Nat.xor_right_inj.mp h0)

/-- Xor of two bits is addition mod 2. -/
lemma xor_bits (a b : Nat) (ha : a ≤ 1) (hb : b ≤ 1) : a ^^^ b = (a + b) % 2 := by
  interval_cases a <;> interval_cases b <;> decide

/-- One update toggles `selected_bind` exactly as many times as it
dispatches: the new index is the old one xor-ed with the dispatch count. -/
lemma update_selected_bind (s : State) (now : Nat) :
    (update s now).1.selected_bind =
      s.selected_bind ^^^ countDispatch (update s now).2 := by
  unfold update
  split
  · simp [countDispatch]
  · simp [countDispatch_computeCmds]

/-- One update submits at most one dispatch. -/
lemma update_dispatch_le_one (s : State) (now : Nat) :
    countDispatch (update s now).2 ≤ 1 := by
  unfold update
  split
  · simp [countDispatch]
  · simp [countDispatch_computeCmds]

/-- Unfolding one step of `runFrames`. -/
lemma runFrames_cons (s : State) (t : Nat) (ts : List Nat) :
    runFrames s (t :: ts) =
      ((runFrames (update s t).1 ts).1,
       (update s t).2 ++ (runFrames (update s t).1 ts).2) := rfl

/-- Folded over any frame-time sequence from an in-range index, the selected
index stays in range and equals the initial index advanced by the number of
dispatches, mod 2. -/
lemma runFrames_selected_bind (times : List Nat) (s : State)
    (hs : s.selected_bind ≤ 1) :
    (runFrames s times).1.selected_bind =
      (s.selected_bind + countDispatch (runFrames s times).2) % 2 ∧
    (runFrames s times).1.selected_bind ≤ 1 := by
  induction times generalizing s with
  | nil =>
      refine ⟨?_, hs⟩
      simp only [runFrames, countDispatch, List.filter_nil, List.length_nil]
      omega
  | cons t ts ih =>
      have hcu := update_dispatch_le_one s t
      have hsel := update_selected_bind s t
      have hb : (update s t).1.selected_bind ≤ 1 := by
        rw [hsel, xor_bits _ _ hs hcu]
        omega
      have h := ih (update s t).1 hb
      rw [runFrames_cons]
      refine ⟨?_, h.2⟩
      show (runFrames (update s t).1 ts).1.selected_bind =
        (s.selected_bind +
          countDispatch ((update s t).2 ++ (runFrames (update s t).1 ts).2)) % 2
      rw [h.1, hsel, countDispatch_append, xor_bits _ _ hs hcu]
      omega

/-- C2: the selected buffer index starts at 0 in `State::new`; a frame's
update changes it exactly when it dispatched (one toggle per dispatch);
neither the rest of the frame nor `resize` touches it; and from a fresh
(index 0) state a run of frames leaves it equal to (number of dispatches)
mod 2, always a single bit in {0, 1}. -/
theorem selected_bind_parity :
    (∀ w h t0, (initState w h t0).selected_bind = 0) ∧
    (∀ s now, (update s now).1.selected_bind ≠ s.selected_bind ↔
      countDispatch (update s now).2 = 1) ∧
    (∀ s now acq, (frame s now acq).1.selected_bind =
      (update s now).1.selected_bind) ∧
    (∀ s ns, (resize s ns).1.selected_bind = s.selected_bind) ∧
    (∀ s times, s.selected_bind = 0 →
      (runFrames s times).1.selected_bind =
        countDispatch (runFrames s times).2 % 2 ∧
      (runFrames s times).1.selected_bind ≤ 1) := by
  refine ⟨fun _ _ _ => rfl, ?_, ?_, fun _ _ => rfl, ?_⟩
  · intro s now
    unfold update
    split
    · simp [countDispatch]
    · simp [countDispatch_computeCmds]
      exact xor_one_ne s.selected_bind
  · intro s now acq
    cases acq with
    | none => rfl
    | some e => cases e <;> rfl
  · intro s times h0
    have h := runFrames_selected_bind times s (by omega)
    rw [h0] at h
    simpa using h

/-- Witness for `selected_bind_parity` at a concrete fresh state and the
frame times [8, 10, 16] (two dispatches, final index 0). -/
theorem selected_bind_parity_witness :
    (runFrames (initState 512 512 0) [8, 10, 16]).1.selected_bind =
      countDispatch (runFrames (initState 512 512 0) [8, 10, 16]).2 % 2 ∧
    (runFrames (initState 512 512 0) [8, 10, 16]).1.selected_bind ≤ 1 :=
  selected_bind_parity.2.2.2.2 (initState 512 512 0) [8, 10, 16] rfl

/-- Every dispatch needs `compute_delay` elapsed since the previously
recorded tick timestamp, so over a frame sequence bounded by `B`, either no
dispatch happened or `compute_delay * (number of dispatches)` fits between
the initial `last_time` and `B`. -/
lemma runFrames_dispatch_bound (times : List Nat) (s : State) (B : Nat)
    (hT : 0 < s.compute_delay) (hB : ∀ t ∈ times, t ≤ B) :
    countDispatch (runFrames s times).2 = 0 ∨
      s.compute_delay * countDispatch (runFrames s times).2 + s.last_time ≤ B := by
  induction times generalizing s with
  | nil =>
      left
      simp [runFrames, countDispatch]
  | cons t ts ih =>
      have hBt : t ≤ B := hB t (by simp)
      have hBts : ∀ x ∈ ts, x ≤ B := fun x hx => hB x (by simp [hx])
      by_cases hc : t - s.last_time < s.compute_delay
      · have hu : update s t = (s, []) := by simp [update, hc]
        rw [runFrames_cons, hu]
        dsimp only
        rw [List.nil_append]
        exact ih s hT hBts
      · have h1 : (update s t).1.last_time = t := by simp [update, hc]
        have h2 : (update s t).1.compute_delay = s.compute_delay := by
          simp [update, hc]
        have h3 : countDispatch (update s t).2 = 1 := by
          simp [update, hc, countDispatch_computeCmds]
        have h := ih (update s t).1 (by rw [h2]; exact hT) hBts
        rw [runFrames_cons]
        dsimp only
        rw [countDispatch_append, h3]
        right
        rcases h with h0 | hle
        · rw [h0]
          have : s.compute_delay + s.last_time ≤ t := by omega
          simpa using le_trans this hBt
        · rw [h1, h2] at hle
          have hexp :
              s.compute_delay * (1 + countDispatch (runFrames (update s t).1 ts).2) +
                s.last_time =
              s.compute_delay * countDispatch (runFrames (update s t).1 ts).2 +
                (s.compute_delay + s.last_time) := by ring
          rw [hexp]
          have hstep : s.compute_delay + s.last_time ≤ t := by omega
          exact le_trans
            (Nat.add_le_add_left hstep
              (s.compute_delay * countDispatch (runFrames (update s t).1 ts).2))
            hle

/-- C3: each per-frame update dispatches the simulation zero or one time,
never more; and over any frame sequence whose timestamps stay within `E` of
the state's last recorded tick, the total number of dispatches is at most
`E / compute_delay` (each dispatch requires at least `compute_delay` elapsed
since the previously recorded tick timestamp). -/
theorem simulation_dispatch_cadence :
    (∀ s now, countDispatch (update s now).2 ≤ 1) ∧
    (∀ s times E, 0 < s.compute_delay →
      (∀ t ∈ times, t ≤ s.last_time + E) →
      countDispatch (runFrames s times).2 ≤ E / s.compute_delay) := by
  refine ⟨update_dispatch_le_one, ?_⟩
  intro s times E hT hB
  rcases runFrames_dispatch_bound times s (s.last_time + E) hT hB with h0 | hle
  · rw [h0]
    exact Nat.zero_le _
  · have h1 : s.compute_delay * countDispatch (runFrames s times).2 ≤ E := by
      rw [Nat.add_comm s.last_time E] at hle
      exact Nat.le_of_add_le_add_right hle
    rw [Nat.mul_comm] at h1
    exact (Nat.le_div_iff_mul_le hT).mpr h1

/-- Witness for `simulation_dispatch_cadence`: from a fresh state, frames at
times 8, 10 and 16 fit within elapsed 16 ms and dispatch at most
16 / 8 = 2 times. -/
theorem simulation_dispatch_cadence_witness :
    countDispatch (runFrames (initState 512 512 0) [8, 10, 16]).2 ≤
      16 / (initState 512 512 0).compute_delay :=
  simulation_dispatch_cadence.2 (initState 512 512 0) [8, 10, 16] 16
    (by decide) (by decide)

/-- C9: when less than the tick interval has elapsed since the last recorded
tick, `State::update` is a complete no-op: it submits no commands and returns
the state with every field (including `last_time`) unchanged. -/
theorem update_noop_before_interval (s : State) (now : Nat)
    (h : now - s.last_time < s.compute_delay) :
    update s now = (s, []) := by
  simp [update, h]

/-- Witness for `update_noop_before_interval` at a fresh state and time 3
(3 ms elapsed < 8 ms interval). -/
theorem update_noop_before_interval_witness :
    3 - (initState 512 512 0).last_time < (initState 512 512 0).compute_delay ∧
    update (initState 512 512 0) 3 = (initState 512 512 0, []) :=
  ⟨by decide, update_noop_before_interval (initState 512 512 0) 3 (by decide)⟩

/-- C10: `State::resize` stores the new window size, sets the surface
configuration's width and height to it, and issues exactly one surface
reconfiguration with those dimensions; the grid size, selected bind index,
last-tick timestamp, tick interval, and clear color are all left unchanged,
so a resize never perturbs the simulation state or cadence. -/
theorem resize_mutates_only_surface (s : State) (ns : Nat × Nat) :
    (resize s ns).1.size = ns ∧
    (resize s ns).1.surface_config = ⟨ns.1, ns.2⟩ ∧
    (resize s ns).2 = [(ns.1, ns.2)] ∧
    (resize s ns).1.grid_size = s.grid_size ∧
    (resize s ns).1.selected_bind = s.selected_bind ∧
    (resize s ns).1.last_time = s.last_time ∧
    (resize s ns).1.compute_delay = s.compute_delay ∧
    (resize s ns).1.clear_color = s.clear_color :=
  ⟨rfl, rfl, rfl, rfl, rfl, rfl, rfl, rfl⟩

/-- The compute encoder of an update contains no draw call. -/
lemma countDraw_update (s : State) (now : Nat) :
    countDraw (update s now).2 = 0 := by
  unfold update
  split
  · rfl
  · rfl

/-- One update submits either nothing or exactly the compute-pass command
sequence. -/
lemma update_cmds_cases (s : State) (now : Nat) :
    (update s now).2 = [] ∨ (update s now).2 = computeCmds s := by
  unfold update
  split
  · left
    rfl
  · right
    rfl

/-- C4 counterexample: in the concrete frame at time 8 from a fresh state
(tick due) whose surface acquisition fails with the recoverable `Lost`
error, a simulation dispatch has already been submitted during that frame —
the per-frame processing does not acquire the presentation target before the
frame's simulation command is submitted. -/
theorem frame_sim_submitted_before_lost_acquire :
    (frame (initState 512 512 0) 8 (some .Lost)).2.2 = ErrorAction.reconfigure ∧
    FrameEvent.acquireFail .Lost ∈ (frame (initState 512 512 0) 8 (some .Lost)).2.1 ∧
    countDispatchEvents (frame (initState 512 512 0) 8 (some .Lost)).2.1 = 1 := by
  decide

/-- C4 (amended): when target acquisition fails, no draw and no present has
yet been issued during that frame, so no presentation work is lost; in a
successful frame the acquisition precedes the draw submission. The
simulation update, however, runs before acquisition, so a due simulation
dispatch is already submitted when acquisition fails. -/
theorem frame_draw_only_after_acquire (s : State) (now : Nat) :
    (∀ e, countDrawEvents (frame s now (some e)).2.1 = 0 ∧
      FrameEvent.present ∉ (frame s now (some e)).2.1) ∧
    (∃ pre, (frame s now none).2.1 =
        pre ++ [.acquireOk, .submit (renderCmds (update s now).1), .present] ∧
      countDrawEvents pre = 0) := by
  constructor
  · intro e
    constructor
    · by_cases hif : (update s now).2.isEmpty <;>
        simp [frame, render, countDrawEvents, hif, countDraw_update s now]
    · by_cases hif : (update s now).2.isEmpty <;>
        simp [frame, render, hif]
  · refine ⟨if (update s now).2.isEmpty then [] else [.submit (update s now).2],
      rfl, ?_⟩
    by_cases hif : (update s now).2.isEmpty <;>
      simp [countDrawEvents, hif, countDraw_update s now]

/-- C5 counterexample: an `Outdated` acquisition error is not reconfigured by
the frame loop — it falls into the catch-all arm that logs and continues,
refuting the claim that a "lost/outdated" error reconfigures the surface. -/
theorem outdated_error_not_reconfigured :
    (handleRenderResult (initState 512 512 0) (some .Outdated)).2 =
      ErrorAction.logAndContinue ∧
    ErrorAction.logAndContinue ≠ ErrorAction.reconfigure := by
  decide

/-- C5 (amended): the frame loop classifies acquisition errors as follows: a
`Lost` error reconfigures the surface with the current window size and skips
the frame's draw; an `OutOfMemory` error exits the frame loop; every other
acquisition error — including `Outdated` and `Timeout` — is logged and the
frame is skipped, with the loop continuing. No failed acquisition issues a
draw. -/
theorem render_error_classification (s : State) :
    handleRenderResult s none = (s, .proceed) ∧
    handleRenderResult s (some .Lost) = ((resize s s.size).1, .reconfigure) ∧
    handleRenderResult s (some .OutOfMemory) = (s, .exitLoop) ∧
    handleRenderResult s (some .Outdated) = (s, .logAndContinue) ∧
    handleRenderResult s (some .Timeout) = (s, .logAndContinue) ∧
    (∀ e, countDrawEvents (render s (some e)).1 = 0) :=
  ⟨rfl, rfl, rfl, rfl, rfl, fun _ => rfl⟩

/-- C6: initialization allocates two equally sized cell-state buffers of
512×512 32-bit floats and seeds exactly one of them (buffer 0) with a
per-cell draw — cell `i` uses the independent `i`-th random float and is 1
(alive) exactly when that float exceeds 0.6, i.e. alive with probability 0.4
under the uniform distribution on [0,1) — leaving buffer 1 unwritten; and no
host write at all occurs during any frame after this seeding. -/
theorem initial_seeding (randoms : Nat → ℚ) :
    cellBufferByteSize 0 = cellBufferByteSize 1 ∧
    cellBufferByteSize 0 = 512 * 512 * 4 ∧
    (initWrites randoms).filter HostWrite.isCellWrite =
      [⟨.cellBuffer 0, seededCells randoms⟩] ∧
    (seededCells randoms).length = 512 * 512 ∧
    (∀ i : Nat, (seededCells randoms)[i]? =
      if i < 512 * 512 then some (seedCell (randoms i)) else none) ∧
    (∀ r : ℚ, (seedCell r = 1 ↔ 6/10 < r) ∧ (seedCell r = 0 ↔ r ≤ 6/10)) ∧
    MeasureTheory.volume {x : ℝ | x ∈ Set.Ico (0:ℝ) 1 ∧ seedCell x = 1} =
      ENNReal.ofReal (4/10) ∧
    (∀ s now acq, countHostWrites (frame s now acq).2.1 = 0) := by
  refine ⟨rfl, rfl, rfl, by simp [seededCells], ?_, ?_, ?_, ?_⟩
  · intro i
    by_cases h : i < 512 * 512
    · simp [seededCells, h]
    · simp [seededCells, h]
      omega
  · intro r
    unfold seedCell
    by_cases h : (6/10 : ℚ) < r
    · rw [if_pos h]
      refine ⟨⟨fun _ => h, fun _ => rfl⟩, ?_, ?_⟩
      · intro h10
        norm_num at h10
      · intro hle
        linarith
    · rw [if_neg h]
      refine ⟨⟨?_, fun hlt => absurd hlt h⟩, fun _ => le_of_not_lt h, fun _ => rfl⟩
      intro h01
      norm_num at h01
  · have hset : {x : ℝ | x ∈ Set.Ico (0:ℝ) 1 ∧ seedCell x = 1} =
        Set.Ioo (6/10 : ℝ) 1 := by
      ext x
      simp only [Set.mem_setOf_eq, Set.mem_Ico, Set.mem_Ioo, seedCell]
      constructor
      · rintro ⟨⟨h0, h1⟩, hif⟩
        by_cases h : (6:ℝ)/10 < x
        · exact ⟨h, h1⟩
        · rw [if_neg h] at hif
          norm_num at hif
      · rintro ⟨h6, h1⟩
        exact ⟨⟨by linarith, h1⟩, if_pos h6⟩
    rw [hset, Real.volume_Ioo]
    norm_num
  · intro s now acq
    rcases acq with _ | e
    · by_cases hif : (update s now).2.isEmpty <;>
        simp [frame, render, countHostWrites, hif]
    · by_cases hif : (update s now).2.isEmpty <;>
        simp [frame, render, countHostWrites, hif]

/-- C7: each simulation tick dispatches `⌈grid_size / 8⌉ × ⌈grid_size / 8⌉`
workgroups of fixed-size 8×8 tiles — 64 × 64 for the 512-cell grid; tile
coverage per axis is at least the grid size, and for 512 (where 64·8 = 512
exactly) every per-axis cell index is covered by exactly one
(workgroup, lane) pair, so no cell is covered twice. -/
theorem dispatch_covers_grid :
    workgroup_count 512 = 64 ∧
    (∀ g : Nat, g ≤ WORKGROUP_TILE * workgroup_count g) ∧
    (∀ s now, countDispatch (update s now).2 = 0 ∨
      Cmd.dispatchWorkgroups (workgroup_count s.grid_size)
        (workgroup_count s.grid_size) 1 ∈ (update s now).2) ∧
    (∀ i : Nat, i < 512 →
      ∃! p : Nat × Nat,
        p.1 < workgroup_count 512 ∧ p.2 < WORKGROUP_TILE ∧
          WORKGROUP_TILE * p.1 + p.2 = i) := by
  refine ⟨rfl, ?_, ?_, ?_⟩
  · intro g
    unfold workgroup_count WORKGROUP_TILE
    omega
  · intro s now
    unfold update
    split
    · left
      rfl
    · right
      simp [computeCmds]
  · intro i hi
    refine ⟨(i / 8, i % 8), ⟨?_, ?_, ?_⟩, ?_⟩
    · show i / 8 < workgroup_count 512
      unfold workgroup_count
      omega
    · show i % 8 < WORKGROUP_TILE
      unfold WORKGROUP_TILE
      omega
    · show WORKGROUP_TILE * (i / 8) + i % 8 = i
      unfold WORKGROUP_TILE
      omega
    · rintro ⟨a, b⟩ ⟨ha, hb, hab⟩
      simp only [workgroup_count] at ha
      simp only [WORKGROUP_TILE] at hb hab
      rw [Prod.mk.injEq]
      omega

/-- Witness for `dispatch_covers_grid` at cell index 137: its unique tile
decomposition. -/
theorem dispatch_covers_grid_witness :
    ∃! p : Nat × Nat,
      p.1 < workgroup_count 512 ∧ p.2 < WORKGROUP_TILE ∧
        WORKGROUP_TILE * p.1 + p.2 = 137 :=
  dispatch_covers_grid.2.2.2 137 (by norm_num)

/-- C8: every successfully displayed frame issues exactly one draw call; the
render pass first clears the target to the fixed background color, then
draws the shared quad geometry — `VERTICES` holds 12 floats, i.e. 6
two-component vertices forming two triangles — with vertex count
`VERTICES.len() / 2 = 6` and instance count `grid_size * grid_size`
(512·512 = 262144 for the default grid), through the currently selected
bind group. -/
theorem frame_single_draw_shape (s : State) (now : Nat) :
    countDrawEvents (frame s now none).2.1 = 1 ∧
    renderCmds s =
      [.beginRenderPass s.clear_color, .setRenderPipeline, .setVertexBuffer,
       .setBindGroup s.selected_bind, .draw 6 (s.grid_size * s.grid_size)] ∧
    VERTICES.length = 12 ∧
    VERTICES.length / 2 = 2 * 3 ∧
    (∀ w h t0, (initState w h t0).clear_color = clearColor) ∧
    Cmd.draw (VERTICES.length / 2) (512 * 512) ∈
      renderCmds (initState 512 512 0) ∧
    (initState 512 512 0).grid_size * (initState 512 512 0).grid_size =
      262144 := by
  refine ⟨?_, rfl, rfl, rfl, fun _ _ _ => rfl, by decide, rfl⟩
  rcases update_cmds_cases s now with h | h <;>
    simp [frame, render, countDrawEvents, h, countDraw, renderCmds,
      Cmd.isDraw, computeCmds]

end GOL
